import Mathlib

/-!
# Verification of the robo-architect workflow engine

Shallow embedding of the Event Storming workflow engine of the
`jinyoung/robo-architect` repository:

* the state record and merge policy (`src/agent/state.py`),
* the node (step) functions (`src/agent/nodes.py`),
* the graph wiring, routers and session runner
  (`src/vscode-extension/server/agent/graph.py`),
* the change-planning approval router
  (`src/vscode-extension/server/agent/change_graph.py`),
* the user-story planning workflow (`src/agent/user_story_graph.py`).

LLM calls and Neo4j access are external I/O; they are abstracted by
oracle structures whose fields stand for the responses of those
services.  Everything a node does to the state around those calls is
translated from the source.  Prompt strings that are only sent to the
LLM (never stored in state) are not reproduced; message strings that
are stored in state are.

Python `str.upper` is embedded for the ASCII range (all comparisons in
the source are against the ASCII literal "APPROVED").
-/

namespace RoboArchitect

/-! ## Data model (src/agent/state.py) -/

/-- `WorkflowPhase` enum (state.py lines 25-43). -/
inductive WorkflowPhase where
  | INIT
  | LOAD_USER_STORIES
  | SELECT_USER_STORY
  | IDENTIFY_BC
  | APPROVE_BC
  | BREAKDOWN_USER_STORY
  | EXTRACT_AGGREGATES
  | APPROVE_AGGREGATES
  | EXTRACT_COMMANDS
  | EXTRACT_READMODELS
  | EXTRACT_EVENTS
  | GENERATE_UI
  | IDENTIFY_POLICIES
  | APPROVE_POLICIES
  | SAVE_TO_GRAPH
  | COMPLETE
  deriving DecidableEq

/-- A LangChain message (`SystemMessage` / `HumanMessage` / `AIMessage`);
only the role and the content string are relevant to the state. -/
inductive Msg where
  | system (content : String)
  | human (content : String)
  | ai (content : String)
  deriving DecidableEq

/-- A user story record loaded from Neo4j (a Python dict in the source;
the keys read by the nodes are `id`, `role`, `action`, `benefit` and
`uiDescription`, with the defaults used by `format_user_story`). -/
structure UserStory where
  id : String
  role : String := ("user")
  action : String := ("do something")
  benefit : String := ("")
  uiDescription : String := ("")
  deriving DecidableEq

/-- `BoundedContextCandidate` (state.py lines 51-60). -/
structure BoundedContextCandidate where
  id : String
  name : String
  description : String := ("")
  rationale : String := ("")
  user_story_ids : List String := []
  deriving DecidableEq

/-- `AggregateCandidate` (state.py lines 63-75). -/
structure AggregateCandidate where
  id : String
  name : String
  root_entity : String := ("")
  invariants : List String := []
  description : String := ("")
  user_story_ids : List String := []
  deriving DecidableEq

/-- `CommandCandidate` (state.py lines 78-87). -/
structure CommandCandidate where
  id : String
  name : String
  actor : String := ("user")
  description : String := ("")
  user_story_ids : List String := []
  deriving DecidableEq

/-- `EventCandidate` (state.py lines 90-98). -/
structure EventCandidate where
  id : String
  name : String
  description : String := ("")
  user_story_ids : List String := []
  deriving DecidableEq

/-- `PolicyCandidate` (state.py lines 101-109). -/
structure PolicyCandidate where
  id : String
  name : String
  trigger_event : String
  target_bc : String
  invoke_command : String
  description : String := ("")
  deriving DecidableEq

/-- `ReadModelCandidate` (state.py lines 168-192); the optional CQRS
configuration is kept as its serialized form, which is all the
workflow state ever threads through. -/
structure ReadModelCandidate where
  id : String
  name : String
  description : String := ("")
  provisioning_type : String := ("CQRS")
  source_bc_ids : List String := []
  source_event_ids : List String := []
  supports_command_ids : List String := []
  cqrs_config : Option String := none
  user_story_ids : List String := []
  deriving DecidableEq

/-- `UICandidate` (state.py lines 195-219). -/
structure UICandidate where
  id : String
  name : String
  description : String := ("")
  template : String := ("")
  attached_to_id : String
  attached_to_type : String
  attached_to_name : String := ("")
  user_story_id : Option String := none
  user_story_ids : List String := []
  deriving DecidableEq

/-- `UserStoryBreakdown` (state.py lines 222-237). -/
structure UserStoryBreakdown where
  user_story_id : String
  sub_tasks : List String := []
  domain_concepts : List String := []
  potential_aggregates : List String := []
  potential_commands : List String := []
  deriving DecidableEq

/-- A Python `dict` keyed by strings, as an association list with unique
keys maintained by `dictSet`. -/
abbrev StrDict (α : Type) : Type := List (String × α)

/-- `d[k] = v` on a Python dict: replace the binding if the key exists,
otherwise append it. -/
def dictSet {α : Type} (d : StrDict α) (k : String) (v : α) : StrDict α :=
  if d.any (fun p => p.1 == k) then
    d.map (fun p => if p.1 == k then (k, v) else p)
  else
    d ++ [(k, v)]

/-- `d.get(k, default)` on a Python dict. -/
def dictGetD {α : Type} (d : StrDict α) (k : String) (v₀ : α) : α :=
  match d.find? (fun p => p.1 == k) with
  | some p => p.2
  | none => v₀

/-- `EventStormingState` (state.py lines 245-310).  `messages` is the
accumulator field (annotated with `add_messages`); every other field is
an overwrite field. -/
structure EventStormingState where
  phase : WorkflowPhase := WorkflowPhase.INIT
  messages : List Msg := []
  user_stories : List UserStory := []
  current_user_story_index : Nat := 0
  bc_candidates : List BoundedContextCandidate := []
  approved_bcs : List BoundedContextCandidate := []
  current_bc_index : Nat := 0
  breakdowns : List UserStoryBreakdown := []
  aggregate_candidates : StrDict (List AggregateCandidate) := []
  approved_aggregates : StrDict (List AggregateCandidate) := []
  command_candidates : StrDict (List CommandCandidate) := []
  event_candidates : StrDict (List EventCandidate) := []
  readmodel_candidates : StrDict (List ReadModelCandidate) := []
  ui_candidates : StrDict (List UICandidate) := []
  policy_candidates : List PolicyCandidate := []
  approved_policies : List PolicyCandidate := []
  awaiting_human_approval : Bool := false
  human_feedback : Option String := none
  error : Option String := none
  processed_user_stories : Nat := 0
  total_user_stories : Nat := 0
  deriving DecidableEq

/-- The default `EventStormingState()` used by `EventStormingRunner.start`. -/
def initialState : EventStormingState := {}

/-- A step delta: the partial update dict a node returns.  A `none`
field is a field the dict does not provide; `messages` holds the list
appended through the `add_messages` accumulator channel.  Fields that
can be set to Python `None` (`human_feedback`) carry an inner
`Option`. -/
structure Delta where
  phase : Option WorkflowPhase := none
  messages : List Msg := []
  user_stories : Option (List UserStory) := none
  bc_candidates : Option (List BoundedContextCandidate) := none
  approved_bcs : Option (List BoundedContextCandidate) := none
  current_bc_index : Option Nat := none
  breakdowns : Option (List UserStoryBreakdown) := none
  aggregate_candidates : Option (StrDict (List AggregateCandidate)) := none
  approved_aggregates : Option (StrDict (List AggregateCandidate)) := none
  command_candidates : Option (StrDict (List CommandCandidate)) := none
  event_candidates : Option (StrDict (List EventCandidate)) := none
  readmodel_candidates : Option (StrDict (List ReadModelCandidate)) := none
  ui_candidates : Option (StrDict (List UICandidate)) := none
  policy_candidates : Option (List PolicyCandidate) := none
  approved_policies : Option (List PolicyCandidate) := none
  awaiting_human_approval : Option Bool := none
  human_feedback : Option (Option String) := none
  error : Option String := none
  total_user_stories : Option Nat := none

/-- Modelled from the spec: the per-field merge of a step delta into
the state (spec section 3, "Merge Policy").  The merge itself is
performed by the LangGraph channel mechanism (library code, not under
src/): every plain field is a last-value channel (overwrite when the
delta provides the field), and `messages` is the `add_messages`
accumulator channel, which appends the delta messages (the nodes of
this repository always emit fresh messages without ids, so
`add_messages` never replaces an existing entry). -/
def applyDelta (st : EventStormingState) (d : Delta) : EventStormingState where
  phase := d.phase.getD st.phase
  messages := st.messages ++ d.messages
  user_stories := d.user_stories.getD st.user_stories
  current_user_story_index := st.current_user_story_index
  bc_candidates := d.bc_candidates.getD st.bc_candidates
  approved_bcs := d.approved_bcs.getD st.approved_bcs
  current_bc_index := d.current_bc_index.getD st.current_bc_index
  breakdowns := d.breakdowns.getD st.breakdowns
  aggregate_candidates := d.aggregate_candidates.getD st.aggregate_candidates
  approved_aggregates := d.approved_aggregates.getD st.approved_aggregates
  command_candidates := d.command_candidates.getD st.command_candidates
  event_candidates := d.event_candidates.getD st.event_candidates
  readmodel_candidates := d.readmodel_candidates.getD st.readmodel_candidates
  ui_candidates := d.ui_candidates.getD st.ui_candidates
  policy_candidates := d.policy_candidates.getD st.policy_candidates
  approved_policies := d.approved_policies.getD st.approved_policies
  awaiting_human_approval := d.awaiting_human_approval.getD st.awaiting_human_approval
  human_feedback := d.human_feedback.getD st.human_feedback
  error := (d.error.map some).getD st.error
  processed_user_stories := st.processed_user_stories
  total_user_stories := d.total_user_stories.getD st.total_user_stories

/-! ## Python string helpers -/

/-- Python truthiness of an `Optional[str]`: `None` and the empty
string are falsy. -/
def pyTruthy : Option String → Bool
  | none => false
  | some s => !(s == "")

/-- Python `str.upper`, on the ASCII range (character-wise uppercase). -/
def pyUpper (s : String) : String := String.mk (s.data.map Char.toUpper)

/-- `format_user_story` (state.py lines 332-344). -/
def format_user_story (us : UserStory) : String :=
  let text := ("As a ") ++ us.role ++ (", I want to ") ++ us.action
  let text := if us.benefit ≠ ("") then text ++ (", so that ") ++ us.benefit else text
  if us.uiDescription ≠ ("") then text ++ ("\n[UI 요구사항]: ") ++ us.uiDescription else text

/-! ## External collaborators

The nodes call an LLM (`get_llm().with_structured_output(...).invoke`)
and a Neo4j client.  Those calls are external I/O; each is abstracted
by an oracle field standing for the response of the service for the
given inputs.  A field returning `Except String _` stands for a call
wrapped in a `try/except` block in the source (the error value is the
exception message). -/

/-- The structured-output LLM responses used by the Event Storming
nodes. -/
structure LLMOracle where
  identifyBCs : List UserStory → List BoundedContextCandidate
  breakdownStory : BoundedContextCandidate → UserStory → UserStoryBreakdown
  extractAggregates : BoundedContextCandidate → List UserStoryBreakdown → List AggregateCandidate
  extractCommands : BoundedContextCandidate → AggregateCandidate → List UserStory → List CommandCandidate
  extractReadmodels : EventStormingState → BoundedContextCandidate → Except String (List ReadModelCandidate)
  extractEvents : String → List CommandCandidate → List EventCandidate
  generateUICommand : CommandCandidate → UserStory → Except String UICandidate
  generateUIReadModel : ReadModelCandidate → UserStory → Except String UICandidate
  identifyPolicies : EventStormingState → List PolicyCandidate

/-- The Neo4j client responses used by the Event Storming nodes.
`save` stands for the whole sequence of client calls inside the
`try` block of `save_to_graph_node` (nodes.py lines 878-1035); it
returns the `saved_items` list or the exception message. -/
structure Neo4jOracle where
  unprocessedStories : List UserStory
  allStories : List UserStory
  save : EventStormingState → Except String (List String)

/-! ## Node functions (src/agent/nodes.py) -/

/-- `init_node` (nodes.py lines 132-137).  The system prompt content is
LLM-facing text; only its presence as a message matters to the state. -/
def init_node (_st : EventStormingState) : Delta where
  phase := some WorkflowPhase.LOAD_USER_STORIES
  messages := [Msg.system ("SYSTEM_PROMPT")]

/-- Display text of the loaded stories (nodes.py lines 158-163). -/
def storiesDisplayText (stories : List UserStory) : String :=
  String.intercalate ("\n")
    (stories.map (fun us => ("- [") ++ us.id ++ ("] ") ++ format_user_story us))

/-- `load_user_stories_node` (nodes.py lines 140-174). -/
def load_user_stories_node (n : Neo4jOracle) (_st : EventStormingState) : Delta :=
  let user_stories := if n.unprocessedStories ≠ [] then n.unprocessedStories else n.allStories
  if user_stories = [] then
    { phase := some WorkflowPhase.COMPLETE
      error := some ("No user stories found in Neo4j. Please load sample data first.") }
  else
    { user_stories := some user_stories
      total_user_stories := some user_stories.length
      phase := some WorkflowPhase.IDENTIFY_BC
      messages := [Msg.human (("Loaded ") ++ toString user_stories.length ++
        (" user stories:\n") ++ storiesDisplayText user_stories)] }

/-- Display text of the BC candidates (nodes.py lines 206-211). -/
def bcDisplayText (bcs : List BoundedContextCandidate) : String :=
  String.intercalate ("\n")
    (bcs.map (fun bc => ("- ") ++ bc.id ++ (": ") ++ bc.name ++
      ("\n  Description: ") ++ bc.description ++
      ("\n  User Stories: ") ++ String.intercalate (", ") bc.user_story_ids))

/-- `identify_bc_node` (nodes.py lines 182-222). -/
def identify_bc_node (o : LLMOracle) (st : EventStormingState) : Delta :=
  let bc_candidates := o.identifyBCs st.user_stories
  { bc_candidates := some bc_candidates
    phase := some WorkflowPhase.APPROVE_BC
    awaiting_human_approval := some true
    messages := [Msg.ai (("I\x27ve identified ") ++ toString bc_candidates.length ++
      (" Bounded Context candidates:\n\n") ++ bcDisplayText bc_candidates ++
      ("\n\nPlease review and approve, or provide feedback for changes."))] }

/-- `approve_bc_node` (nodes.py lines 225-254). -/
def approve_bc_node (st : EventStormingState) : Delta :=
  let feedback := st.human_feedback
  if pyTruthy feedback && (pyUpper (feedback.getD ("")) == ("APPROVED")) then
    { approved_bcs := some st.bc_candidates
      awaiting_human_approval := some false
      human_feedback := some none
      phase := some WorkflowPhase.BREAKDOWN_USER_STORY
      current_bc_index := some 0
      messages := [Msg.human ("APPROVED"),
        Msg.ai ("Bounded Contexts approved! Moving to user story breakdown...")] }
  else if pyTruthy feedback then
    { awaiting_human_approval := some false
      human_feedback := some none
      phase := some WorkflowPhase.IDENTIFY_BC
      messages := [Msg.human (feedback.getD ("")),
        Msg.ai (("I\x27ll revise the Bounded Contexts based on your feedback: ") ++
          feedback.getD (""))] }
  else
    { awaiting_human_approval := some true }

/-- `breakdown_user_story_node` (nodes.py lines 262-304). -/
def breakdown_user_story_node (o : LLMOracle) (st : EventStormingState) : Delta :=
  if h : st.approved_bcs.length ≤ st.current_bc_index then
    { phase := some WorkflowPhase.EXTRACT_AGGREGATES
      current_bc_index := some 0 }
  else
    let current_bc := st.approved_bcs.get ⟨st.current_bc_index, by omega⟩
    let bc_stories := st.user_stories.filter (fun us => us.id ∈ current_bc.user_story_ids)
    let breakdowns := bc_stories.map (fun us =>
      { o.breakdownStory current_bc us with user_story_id := us.id })
    { breakdowns := some (st.breakdowns ++ breakdowns)
      current_bc_index := some (st.current_bc_index + 1)
      messages := [Msg.ai (("Analyzed ") ++ toString breakdowns.length ++
        (" user stories in BC \x27") ++ current_bc.name ++
        ("\x27. Moving to next BC..."))] }

/-- `extract_aggregates_node` (nodes.py lines 312-367). -/
def extract_aggregates_node (o : LLMOracle) (st : EventStormingState) : Delta :=
  if h : st.approved_bcs.length ≤ st.current_bc_index then
    { phase := some WorkflowPhase.APPROVE_AGGREGATES
      awaiting_human_approval := some true
      current_bc_index := some 0 }
  else
    let current_bc := st.approved_bcs.get ⟨st.current_bc_index, by omega⟩
    let bc_breakdowns := st.breakdowns.filter
      (fun bd => bd.user_story_id ∈ current_bc.user_story_ids)
    let aggregates := o.extractAggregates current_bc bc_breakdowns
    let aggregate_candidates := dictSet st.aggregate_candidates current_bc.id aggregates
    { aggregate_candidates := some aggregate_candidates
      current_bc_index := some (st.current_bc_index + 1)
      messages := [Msg.ai (("Identified ") ++ toString aggregates.length ++
        (" aggregates for BC \x27") ++ current_bc.name ++ ("\x27."))] }

/-- Review text of the aggregate candidates (nodes.py lines 398-405). -/
def aggregatesReviewText (st : EventStormingState) : String :=
  st.aggregate_candidates.foldl (fun agg_text p =>
    let bc_name := match st.approved_bcs.find? (fun bc => bc.id == p.1) with
      | some bc => bc.name
      | none => p.1
    agg_text ++ ("\n") ++ bc_name ++ (":\n") ++
      p.2.foldl (fun t agg =>
        t ++ ("  - ") ++ agg.name ++ (": ") ++ agg.description ++ ("\n") ++
          ("    Invariants: ") ++ String.intercalate (", ") agg.invariants ++ ("\n")) (""))
    ("")

/-- `approve_aggregates_node` (nodes.py lines 370-414). -/
def approve_aggregates_node (st : EventStormingState) : Delta :=
  let feedback := st.human_feedback
  if pyTruthy feedback && (pyUpper (feedback.getD ("")) == ("APPROVED")) then
    { approved_aggregates := some st.aggregate_candidates
      awaiting_human_approval := some false
      human_feedback := some none
      phase := some WorkflowPhase.EXTRACT_COMMANDS
      messages := [Msg.human ("APPROVED"),
        Msg.ai ("Aggregates approved! Extracting commands...")] }
  else if pyTruthy feedback then
    { awaiting_human_approval := some false
      human_feedback := some none
      phase := some WorkflowPhase.EXTRACT_AGGREGATES
      current_bc_index := some 0
      messages := [Msg.human (feedback.getD ("")),
        Msg.ai (("I\x27ll revise the Aggregates based on your feedback: ") ++
          feedback.getD (""))] }
  else
    { awaiting_human_approval := some true
      messages := [Msg.ai (("Please review the proposed Aggregates:\n") ++
        aggregatesReviewText st ++
        ("\n\nType \x27APPROVED\x27 or provide feedback."))] }

/-- `extract_commands_node` (nodes.py lines 422-464). -/
def extract_commands_node (o : LLMOracle) (st : EventStormingState) : Delta :=
  let command_candidates := st.approved_aggregates.foldl (fun acc p =>
    match st.approved_bcs.find? (fun bc => bc.id == p.1) with
    | none => acc
    | some bc =>
        p.2.foldl (fun acc2 agg =>
          let agg_story_ids := if agg.user_story_ids ≠ [] then agg.user_story_ids
            else bc.user_story_ids
          let agg_stories := st.user_stories.filter (fun us => us.id ∈ agg_story_ids)
          dictSet acc2 agg.id (o.extractCommands bc agg agg_stories)) acc)
    st.command_candidates
  { command_candidates := some command_candidates
    phase := some WorkflowPhase.EXTRACT_READMODELS
    messages := [Msg.ai ("Extracted commands for all aggregates. Moving to ReadModel extraction...")] }

/-- `extract_readmodels_node` (nodes.py lines 472-552).  The prompt
assembly (commands text, other-BC events, stories text, lines 490-529)
is LLM-facing only; the oracle receives the whole state instead.  The
`try/except` around the structured LLM call (lines 531-539) is the
`Except` match: on an exception the node substitutes the empty list. -/
def extract_readmodels_node (o : LLMOracle) (st : EventStormingState) : Delta :=
  let readmodel_candidates := st.approved_bcs.foldl (fun acc bc =>
    let bc_commands := (dictGetD st.approved_aggregates bc.id []).foldl
      (fun cs agg => cs ++ dictGetD st.command_candidates agg.id []) []
    if bc_commands = [] then acc
    else
      let readmodels := match o.extractReadmodels st bc with
        | Except.ok rms => rms
        | Except.error _ => []
      if readmodels ≠ [] then dictSet acc bc.id readmodels else acc)
    st.readmodel_candidates
  { readmodel_candidates := some readmodel_candidates
    phase := some WorkflowPhase.EXTRACT_EVENTS
    messages := [Msg.ai (("Extracted ReadModels for ") ++
      toString readmodel_candidates.length ++
      (" BCs. Moving to event extraction..."))] }

/-- `extract_events_node` (nodes.py lines 560-606).  The aggregate/BC
name lookup (lines 572-584) only feeds the prompt; the oracle receives
the aggregate id and its commands. -/
def extract_events_node (o : LLMOracle) (st : EventStormingState) : Delta :=
  let event_candidates := st.command_candidates.foldl (fun acc p =>
    dictSet acc p.1 (o.extractEvents p.1 p.2)) st.event_candidates
  { event_candidates := some event_candidates
    phase := some WorkflowPhase.GENERATE_UI
    messages := [Msg.ai ("Extracted events for all commands. Generating UI wireframes...")] }

/-- The UI keyword list of `generate_ui_node` (nodes.py line 629). -/
def uiKeywords : List String :=
  [("화면"), ("UI"), ("페이지"), ("폼"), ("입력"), ("표시"), ("보여"), ("조회"),
   ("view"), ("screen"), ("form"), ("display")]

/-- Python `needle in hay` on strings (substring containment). -/
def strContainsSub (hay needle : String) : Bool :=
  needle == ("") || (hay.splitOn needle).length ≥ 2

/-- Python `str.lower`, on the ASCII range (character-wise lowercase). -/
def pyLower (s : String) : String := String.mk (s.data.map Char.toLower)

/-- UI-mention test of `generate_ui_node` (nodes.py lines 633-635). -/
def hasUIMention (us : UserStory) : Bool :=
  let story_text := pyLower (us.action ++ (" ") ++ us.benefit ++ (" ") ++ us.uiDescription)
  !(us.uiDescription == ("")) ||
    uiKeywords.any (fun kw => strContainsSub story_text (pyLower kw))

/-- The command-UI inner loop of `generate_ui_node` (nodes.py lines
642-688): one UI candidate per command implementing the story, with
the id/attachment fields forced after the LLM call; a failed call is
skipped. -/
def generateCommandUIs (o : LLMOracle) (st : EventStormingState)
    (bc : BoundedContextCandidate) (bc_short : String) (us : UserStory)
    (bc_uis : List UICandidate) : List UICandidate :=
  (dictGetD st.approved_aggregates bc.id []).foldl (fun uis agg =>
    (dictGetD st.command_candidates agg.id []).foldl (fun uis2 cmd =>
      if us.id ∈ cmd.user_story_ids then
        let ui_id := ("UI-") ++ bc_short ++ ("-") ++ pyUpper cmd.name
        if uis2.any (fun u => u.id == ui_id) then uis2
        else
          match o.generateUICommand cmd us with
          | Except.ok response =>
              uis2 ++ [{ response with
                id := ui_id
                attached_to_id := cmd.id
                attached_to_type := ("Command")
                attached_to_name := cmd.name
                user_story_id := some us.id
                user_story_ids := [us.id] }]
          | Except.error _ => uis2
      else uis2) uis) bc_uis

/-- The readmodel-UI inner loop of `generate_ui_node` (nodes.py lines
690-732). -/
def generateReadModelUIs (o : LLMOracle) (st : EventStormingState)
    (bc : BoundedContextCandidate) (bc_short : String) (us : UserStory)
    (bc_uis : List UICandidate) : List UICandidate :=
  (dictGetD st.readmodel_candidates bc.id []).foldl (fun uis rm =>
    if us.id ∈ rm.user_story_ids then
      let ui_id := ("UI-") ++ bc_short ++ ("-") ++ pyUpper rm.name
      if uis.any (fun u => u.id == ui_id) then uis
      else
        match o.generateUIReadModel rm us with
        | Except.ok response =>
            uis ++ [{ response with
              id := ui_id
              attached_to_id := rm.id
              attached_to_type := ("ReadModel")
              attached_to_name := rm.name
              user_story_id := some us.id
              user_story_ids := [us.id] }]
        | Except.error _ => uis
    else uis) bc_uis

/-- Python `bc.id.replace("BC-", "")` as used throughout nodes.py. -/
def stripBCPrefix (s : String) : String :=
  String.intercalate ("") (s.splitOn ("BC-"))

/-- `generate_ui_node` (nodes.py lines 614-745). -/
def generate_ui_node (o : LLMOracle) (st : EventStormingState) : Delta :=
  let ui_candidates := st.approved_bcs.foldl (fun acc bc =>
    let bc_short := stripBCPrefix bc.id
    let bc_stories := st.user_stories.filter (fun us => us.id ∈ bc.user_story_ids)
    let bc_uis := bc_stories.foldl (fun uis us =>
      if !hasUIMention us then uis
      else
        let uis := generateCommandUIs o st bc bc_short us uis
        generateReadModelUIs o st bc bc_short us uis) []
    if bc_uis ≠ [] then dictSet acc bc.id bc_uis else acc)
    st.ui_candidates
  { ui_candidates := some ui_candidates
    phase := some WorkflowPhase.IDENTIFY_POLICIES
    messages := [Msg.ai (("Generated ") ++
      toString (ui_candidates.foldl (fun n p => n + p.2.length) 0) ++
      (" UI wireframes. Identifying cross-BC policies..."))] }

/-- `identify_policies_node` (nodes.py lines 753-821).  The event and
command roll-ups (lines 757-805) only feed the prompt; the oracle
receives the whole state. -/
def identify_policies_node (o : LLMOracle) (st : EventStormingState) : Delta :=
  let policies := o.identifyPolicies st
  { policy_candidates := some policies
    phase := some WorkflowPhase.APPROVE_POLICIES
    awaiting_human_approval := some true
    messages := [Msg.ai (("Identified ") ++ toString policies.length ++
      (" cross-BC policies. Please review..."))] }

/-- Review text of the policy candidates (nodes.py lines 851-856). -/
def policiesReviewText (pols : List PolicyCandidate) : String :=
  String.intercalate ("\n")
    (pols.map (fun pol => ("- ") ++ pol.name ++ ("\n  When: ") ++ pol.trigger_event ++
      (" → Then: ") ++ pol.invoke_command ++ (" (in ") ++ pol.target_bc ++ (")")))

/-- `approve_policies_node` (nodes.py lines 824-865). -/
def approve_policies_node (st : EventStormingState) : Delta :=
  let feedback := st.human_feedback
  if pyTruthy feedback && (pyUpper (feedback.getD ("")) == ("APPROVED")) then
    { approved_policies := some st.policy_candidates
      awaiting_human_approval := some false
      human_feedback := some none
      phase := some WorkflowPhase.SAVE_TO_GRAPH
      messages := [Msg.human ("APPROVED"),
        Msg.ai ("Policies approved! Saving everything to Neo4j...")] }
  else if pyTruthy feedback then
    { awaiting_human_approval := some false
      human_feedback := some none
      phase := some WorkflowPhase.IDENTIFY_POLICIES
      messages := [Msg.human (feedback.getD ("")),
        Msg.ai (("I\x27ll revise the Policies based on your feedback: ") ++
          feedback.getD (""))] }
  else
    { awaiting_human_approval := some true
      messages := [Msg.ai (("Please review the proposed Policies:\n\n") ++
        policiesReviewText st.policy_candidates ++
        ("\n\nType \x27APPROVED\x27 or provide feedback."))] }

/-- `save_to_graph_node` (nodes.py lines 873-1055).  The body of the
`try` block is the sequence of Neo4j client calls abstracted by
`Neo4jOracle.save`; the `except` branch (lines 1048-1055) returns a
delta that still sets the phase to `COMPLETE` and records the error
message. -/
def save_to_graph_node (n : Neo4jOracle) (st : EventStormingState) : Delta :=
  match n.save st with
  | Except.ok saved_items =>
      { phase := some WorkflowPhase.COMPLETE
        messages := [Msg.ai (("✅ Successfully saved to Neo4j!\n\nCreated items:\n") ++
          String.intercalate ("\n") saved_items ++
          ("\n\nYou can now view the graph in Neo4j Browser at http://localhost:7474"))] }
  | Except.error e =>
      { phase := some WorkflowPhase.COMPLETE
        error := some e
        messages := [Msg.ai (("❌ Error saving to Neo4j: ") ++ e)] }

/-! ## Graph wiring and routers
(src/vscode-extension/server/agent/graph.py) -/

/-- The node names of the compiled Event Storming graph (graph.py lines
131-143) plus the LangGraph terminal marker `END`. -/
inductive NodeName where
  | init
  | load_user_stories
  | identify_bc
  | approve_bc
  | breakdown_user_story
  | extract_aggregates
  | approve_aggregates
  | extract_commands
  | extract_events
  | generate_ui
  | identify_policies
  | approve_policies
  | save_to_graph
  | END
  deriving DecidableEq

/-- `route_after_bc_approval` (graph.py lines 63-69). -/
def route_after_bc_approval (st : EventStormingState) : NodeName :=
  if st.approved_bcs ≠ [] then NodeName.breakdown_user_story else NodeName.identify_bc

/-- `route_after_aggregate_approval` (graph.py lines 72-78). -/
def route_after_aggregate_approval (st : EventStormingState) : NodeName :=
  if st.approved_aggregates ≠ [] then NodeName.extract_commands
  else NodeName.extract_aggregates

/-- `route_after_policy_approval` (graph.py lines 81-91). -/
def route_after_policy_approval (st : EventStormingState) : NodeName :=
  if st.phase = WorkflowPhase.SAVE_TO_GRAPH then NodeName.save_to_graph
  else if !st.awaiting_human_approval ∧ st.phase ≠ WorkflowPhase.IDENTIFY_POLICIES then
    NodeName.save_to_graph
  else NodeName.identify_policies

/-- `route_breakdown` (graph.py lines 94-100). -/
def route_breakdown (st : EventStormingState) : NodeName :=
  if st.current_bc_index < st.approved_bcs.length then NodeName.breakdown_user_story
  else NodeName.extract_aggregates

/-- `route_aggregate_extraction` (graph.py lines 103-109). -/
def route_aggregate_extraction (st : EventStormingState) : NodeName :=
  if st.current_bc_index < st.approved_bcs.length then NodeName.extract_aggregates
  else NodeName.approve_aggregates

/-- The edge map of `create_event_storming_graph` (graph.py lines
150-216): static edges plus the conditional edges, whose routers are
evaluated on the post-merge state. -/
def routeFrom (n : NodeName) (st : EventStormingState) : NodeName :=
  match n with
  | NodeName.init => NodeName.load_user_stories
  | NodeName.load_user_stories => NodeName.identify_bc
  | NodeName.identify_bc => NodeName.approve_bc
  | NodeName.approve_bc => route_after_bc_approval st
  | NodeName.breakdown_user_story => route_breakdown st
  | NodeName.extract_aggregates => route_aggregate_extraction st
  | NodeName.approve_aggregates => route_after_aggregate_approval st
  | NodeName.extract_commands => NodeName.extract_events
  | NodeName.extract_events => NodeName.generate_ui
  | NodeName.generate_ui => NodeName.identify_policies
  | NodeName.identify_policies => NodeName.approve_policies
  | NodeName.approve_policies => route_after_policy_approval st
  | NodeName.save_to_graph => NodeName.END
  | NodeName.END => NodeName.END

/-- The interrupt set of the compiled graph:
`interrupt_before=["approve_bc", "approve_aggregates", "approve_policies"]`
(graph.py line 228). -/
def interrupts : List NodeName :=
  [NodeName.approve_bc, NodeName.approve_aggregates, NodeName.approve_policies]

/-- Dispatch of `graph.add_node` (graph.py lines 131-143): the node
function executed for each node name.  `END` executes nothing. -/
def nodeFn (o : LLMOracle) (n : Neo4jOracle) : NodeName → EventStormingState → Delta
  | NodeName.init => init_node
  | NodeName.load_user_stories => load_user_stories_node n
  | NodeName.identify_bc => identify_bc_node o
  | NodeName.approve_bc => approve_bc_node
  | NodeName.breakdown_user_story => breakdown_user_story_node o
  | NodeName.extract_aggregates => extract_aggregates_node o
  | NodeName.approve_aggregates => approve_aggregates_node
  | NodeName.extract_commands => extract_commands_node o
  | NodeName.extract_events => extract_events_node o
  | NodeName.generate_ui => generate_ui_node o
  | NodeName.identify_policies => identify_policies_node o
  | NodeName.approve_policies => approve_policies_node
  | NodeName.save_to_graph => save_to_graph_node n
  | NodeName.END => fun _ => {}

/-! ## The engine loop

Modelled from the spec: the LangGraph streaming engine driving the
compiled graph is library code, not under src/; it is modelled from
spec section 4.2 ("Algorithm per advance") and the runner usage in
graph.py.  A checkpoint is the pair (state, next step name); the
engine repeatedly executes the next step, merges its delta, evaluates
the outgoing edge on the post-merge state, and stops when the next
step is the terminal marker or a member of the interrupt set (the
latter only when the step is not the resume-in-progress one).  The
`trace` collects the names of the executed steps. -/

/-- One engine run outcome: final checkpoint plus the executed steps. -/
structure RunResult where
  state : EventStormingState
  next : NodeName
  trace : List NodeName
  deriving DecidableEq

/-- Modelled from the spec: the automatic advance loop (spec section
4.2, steps 1-5) with fuel; it suspends *before* any interrupt-set
step and stops at `END`. -/
def runLoop (o : LLMOracle) (n : Neo4jOracle) :
    Nat → EventStormingState → NodeName → RunResult
  | 0, st, next => { state := st, next := next, trace := [] }
  | fuel + 1, st, next =>
    if next = NodeName.END then { state := st, next := next, trace := [] }
    else if next ∈ interrupts then { state := st, next := next, trace := [] }
    else
      let st2 := applyDelta st (nodeFn o n next st)
      let next2 := routeFrom next st2
      let r := runLoop o n fuel st2 next2
      { r with trace := next :: r.trace }

/-- Modelled from the spec: a resume advance (spec section 4.3,
`resume`): the previously suspended step is executed exactly once with
the resume-in-progress flag set, then the loop continues normally. -/
def resumeLoop (o : LLMOracle) (n : Neo4jOracle)
    (fuel : Nat) (st : EventStormingState) (next : NodeName) : RunResult :=
  if next = NodeName.END then { state := st, next := next, trace := [] }
  else
    let st2 := applyDelta st (nodeFn o n next st)
    let next2 := routeFrom next st2
    let r := runLoop o n fuel st2 next2
    { r with trace := next :: r.trace }

/-! ## Session runner (`EventStormingRunner`, graph.py lines 245-322) -/

/-- The runner: `_current_state` is `none` until `start` is called;
afterwards it holds the latest checkpoint (state plus pending step). -/
structure Runner where
  current : Option (EventStormingState × NodeName) := none

/-- `EventStormingRunner.start` (graph.py lines 268-276): stream from
the default initial state until an interrupt or the end. -/
def Runner.start (o : LLMOracle) (n : Neo4jOracle) (fuel : Nat) : Runner :=
  let r := runLoop o n fuel initialState NodeName.init
  { current := some (r.state, r.next) }

/-- `EventStormingRunner.provide_feedback` (graph.py lines 278-293):
raise a `ValueError` when the workflow was never started; otherwise
patch `human_feedback` and `awaiting_human_approval` into the current
checkpoint via `graph.update_state` and resume the stream. -/
def Runner.provide_feedback (o : LLMOracle) (n : Neo4jOracle) (fuel : Nat)
    (r : Runner) (feedback : String) : Except String Runner :=
  match r.current with
  | none => Except.error ("Workflow not started. Call start() first.")
  | some (st, next) =>
      let st2 := { st with human_feedback := some feedback, awaiting_human_approval := false }
      let res := resumeLoop o n fuel st2 next
      Except.ok { current := some (res.state, res.next) }

/-- `EventStormingRunner.is_complete` (graph.py lines 307-310). -/
def Runner.is_complete (r : Runner) : Bool :=
  match r.current with
  | some (st, _) => st.phase = WorkflowPhase.COMPLETE
  | none => false

/-! ## Change planning workflow
(src/vscode-extension/server/agent/change_graph.py) -/

namespace ChangeGraph

/-- `ChangeScope` enum (change_graph.py lines 38-42). -/
inductive ChangeScope where
  | LOCAL
  | CROSS_BC
  | NEW_CAPABILITY
  deriving DecidableEq

/-- `ChangePlanningPhase` enum (change_graph.py lines 45-54). -/
inductive ChangePlanningPhase where
  | INIT
  | ANALYZE_SCOPE
  | SEARCH_RELATED
  | GENERATE_PLAN
  | AWAIT_APPROVAL
  | REVISE_PLAN
  | APPLY_CHANGES
  | COMPLETE
  deriving DecidableEq

/-- The fields of `ChangePlanningState` (change_graph.py lines 84-119)
read or written by the scope-analysis node and the approval router. -/
structure ChangePlanningState where
  phase : ChangePlanningPhase := ChangePlanningPhase.INIT
  change_scope : Option ChangeScope := none
  scope_reasoning : String := ("")
  keywords_to_search : List String := []
  change_description : String := ("")
  awaiting_approval : Bool := false
  human_feedback : Option String := none
  deriving DecidableEq

/-- A parsed scope-analysis LLM response (the JSON dict of
change_graph.py lines 207-213). -/
structure ScopeAnalysis where
  scope : String
  reasoning : String := ("")
  keywords : List String := []
  change_description : String := ("")
  deriving DecidableEq

/-- The partial update returned by `analyze_scope_node`. -/
structure ScopeDelta where
  phase : ChangePlanningPhase
  change_scope : ChangeScope
  scope_reasoning : String
  keywords_to_search : List String
  change_description : String
  deriving DecidableEq

/-- `scope_map.get(result["scope"], ChangeScope.LOCAL)` (change_graph.py
lines 231-235, 239). -/
def scopeOfString (s : String) : ChangeScope :=
  if s == ("LOCAL") then ChangeScope.LOCAL
  else if s == ("CROSS_BC") then ChangeScope.CROSS_BC
  else if s == ("NEW_CAPABILITY") then ChangeScope.NEW_CAPABILITY
  else ChangeScope.LOCAL

/-- `analyze_scope_node` (change_graph.py lines 160-251).  The oracle
stands for the LLM call plus the JSON extraction inside the `try`
block; the `except` branch (lines 244-251) swallows the failure and
continues with the `LOCAL` defaults, recording the message only inside
`scope_reasoning`. -/
def analyze_scope_node (analysis : Except String ScopeAnalysis)
    (_st : ChangePlanningState) : ScopeDelta :=
  match analysis with
  | Except.ok result =>
      { phase := if result.scope ≠ ("LOCAL") then ChangePlanningPhase.SEARCH_RELATED
          else ChangePlanningPhase.GENERATE_PLAN
        change_scope := scopeOfString result.scope
        scope_reasoning := result.reasoning
        keywords_to_search := result.keywords
        change_description := result.change_description }
  | Except.error e =>
      { phase := ChangePlanningPhase.GENERATE_PLAN
        change_scope := ChangeScope.LOCAL
        scope_reasoning := ("Failed to parse LLM response: ") ++ e
        keywords_to_search := []
        change_description := ("") }

/-- The labels `route_after_approval` can return (change_graph.py lines
674-681). -/
inductive ApprovalRoute where
  | apply_changes
  | revise_plan
  | await_approval
  deriving DecidableEq

/-- `route_after_approval` (change_graph.py lines 674-681). -/
def route_after_approval (st : ChangePlanningState) : ApprovalRoute :=
  if pyTruthy st.human_feedback then
    if pyUpper (st.human_feedback.getD ("")) == ("APPROVED") then ApprovalRoute.apply_changes
    else ApprovalRoute.revise_plan
  else ApprovalRoute.await_approval

end ChangeGraph

/-! ## User story planning workflow (src/agent/user_story_graph.py) -/

namespace UserStoryGraph

/-- `PlanningScope` enum (user_story_graph.py lines 37-41). -/
inductive PlanningScope where
  | EXISTING_BC
  | NEW_BC
  | CROSS_BC
  deriving DecidableEq

/-- `ProposedObject` (user_story_graph.py lines 44-58). -/
structure ProposedObject where
  action : String := ("create")
  targetType : String
  targetId : String
  targetName : String := ("")
  targetBcId : Option String := none
  targetBcName : Option String := none
  description : String := ("")
  reason : String := ("")
  connectionType : Option String := none
  sourceId : Option String := none
  actor : Option String := none
  aggregateId : Option String := none
  commandId : Option String := none
  deriving DecidableEq

/-- A related object found in the matched BC (a Python dict with keys
`id`, `name`, `type`; user_story_graph.py lines 251-268). -/
structure RelatedObject where
  id : String
  name : String
  type : String
  deriving DecidableEq

/-- `UserStoryPlanningState` (user_story_graph.py lines 61-93). -/
structure UserStoryPlanningState where
  role : String := ("")
  action : String := ("")
  benefit : String := ("")
  target_bc_id : Option String := none
  auto_generate : Bool := true
  story_intent : String := ("")
  domain_keywords : List String := []
  action_verbs : List String := []
  scope : PlanningScope := PlanningScope.EXISTING_BC
  scope_reasoning : String := ("")
  matched_bc_id : Option String := none
  matched_bc_name : Option String := none
  related_objects : List RelatedObject := []
  proposed_objects : List ProposedObject := []
  plan_summary : String := ("")
  error : Option String := none
  deriving DecidableEq

/-- A step delta for the planning state (the dict returned by a node;
`none` = field not provided). -/
structure PlanDelta where
  story_intent : Option String := none
  domain_keywords : Option (List String) := none
  action_verbs : Option (List String) := none
  scope : Option PlanningScope := none
  scope_reasoning : Option String := none
  matched_bc_id : Option (Option String) := none
  matched_bc_name : Option (Option String) := none
  related_objects : Option (List RelatedObject) := none
  proposed_objects : Option (List ProposedObject) := none
  plan_summary : Option String := none
  error : Option String := none

/-- Modelled from the spec: the LangGraph merge for the planning state
(all fields are plain overwrite channels; this graph has no
accumulator field). -/
def applyPlanDelta (st : UserStoryPlanningState) (d : PlanDelta) : UserStoryPlanningState where
  role := st.role
  action := st.action
  benefit := st.benefit
  target_bc_id := st.target_bc_id
  auto_generate := st.auto_generate
  story_intent := d.story_intent.getD st.story_intent
  domain_keywords := d.domain_keywords.getD st.domain_keywords
  action_verbs := d.action_verbs.getD st.action_verbs
  scope := d.scope.getD st.scope
  scope_reasoning := d.scope_reasoning.getD st.scope_reasoning
  matched_bc_id := d.matched_bc_id.getD st.matched_bc_id
  matched_bc_name := d.matched_bc_name.getD st.matched_bc_name
  related_objects := d.related_objects.getD st.related_objects
  proposed_objects := d.proposed_objects.getD st.proposed_objects
  plan_summary := d.plan_summary.getD st.plan_summary
  error := (d.error.map some).getD st.error

/-- A parsed story-analysis LLM response (the JSON dict of
user_story_graph.py lines 152-158). -/
structure StoryAnalysis where
  intent : String := ("")
  domain_keywords : List String := []
  action_verbs : List String := []
  deriving DecidableEq

/-- A parsed object-generation LLM response (the JSON dict of
user_story_graph.py lines 349-367). -/
structure ObjectPlan where
  summary : String := ("")
  objects : List ProposedObject := []
  deriving DecidableEq

/-- The Neo4j responses used by `find_matching_bc_node`:
`lookupBC` is the lookup by explicit id (lines 199-202), `searchBC`
the keyword search returning `(id, name, score)` (lines 221-240), and
`relatedFor` the related-object query for the matched BC (lines
245-268). -/
structure PlanningNeo4jOracle where
  lookupBC : String → Option (String × String)
  searchBC : List String → Option (String × String × Int)
  relatedFor : String → List RelatedObject

/-- `analyze_story_node` (user_story_graph.py lines 133-186).  The
oracle stands for the LLM call plus JSON extraction in the `try`
block; the `except` branch (lines 180-186) falls back to the raw
action text. -/
def analyze_story_node (analysis : Except String StoryAnalysis)
    (st : UserStoryPlanningState) : PlanDelta :=
  match analysis with
  | Except.ok result =>
      { story_intent := some result.intent
        domain_keywords := some result.domain_keywords
        action_verbs := some result.action_verbs }
  | Except.error e =>
      { story_intent := some st.action
        domain_keywords := some (if st.action ≠ ("") then
            [(st.action.splitOn (" ")).headD ("")] else [])
        action_verbs := some []
        error := some e }

/-- The keyword-search fall-through of `find_matching_bc_node`
(user_story_graph.py lines 214-287): search BCs by the collected
keywords; a hit with score at least 2 matches an existing BC (its
related objects are collected), anything else proposes a new BC. -/
def findBCByKeywords (n : PlanningNeo4jOracle)
    (st : UserStoryPlanningState) : PlanDelta :=
  let keywords := st.domain_keywords ++ st.action_verbs
  match n.searchBC keywords with
  | some (id, name, score) =>
      if score ≥ 2 then
        { scope := some PlanningScope.EXISTING_BC
          scope_reasoning := some (("Found matching BC \x27") ++ name ++
            ("\x27 based on keywords: ") ++ String.intercalate (", ") keywords)
          matched_bc_id := some (some id)
          matched_bc_name := some (some name)
          related_objects := some (n.relatedFor id) }
      else
        { scope := some PlanningScope.NEW_BC
          scope_reasoning := some (("No matching BC found for keywords: ") ++
            String.intercalate (", ") keywords ++ (". Proposing new BC."))
          matched_bc_id := some none
          matched_bc_name := some none
          related_objects := some [] }
  | none =>
      { scope := some PlanningScope.NEW_BC
        scope_reasoning := some (("No matching BC found for keywords: ") ++
          String.intercalate (", ") keywords ++ (". Proposing new BC."))
        matched_bc_id := some none
        matched_bc_name := some none
        related_objects := some [] }

/-- `find_matching_bc_node` (user_story_graph.py lines 189-287): an
explicitly targeted BC that exists is used directly; otherwise the
node falls through to the keyword search. -/
def find_matching_bc_node (n : PlanningNeo4jOracle)
    (st : UserStoryPlanningState) : PlanDelta :=
  match st.target_bc_id with
  | some bc_id =>
      match n.lookupBC bc_id with
      | some (id, name) =>
          { scope := some PlanningScope.EXISTING_BC
            scope_reasoning := some (("Using specified BC: ") ++ name)
            matched_bc_id := some (some id)
            matched_bc_name := some (some name) }
      | none => findBCByKeywords n st
  | none => findBCByKeywords n st

/-- `generate_objects_node` (user_story_graph.py lines 290-417).  When
`auto_generate` is disabled the node returns immediately (lines
294-299) without invoking the LLM; otherwise the oracle stands for the
LLM call plus JSON parsing, and each parsed object falls back to the
matched BC id/name (lines 389-405). -/
def generate_objects_node (plan : Except String ObjectPlan)
    (st : UserStoryPlanningState) : PlanDelta :=
  if !st.auto_generate then
    { proposed_objects := some []
      plan_summary := some ("Auto-generation disabled. User story will be created without related objects.") }
  else
    match plan with
    | Except.ok result =>
        { proposed_objects := some (result.objects.map (fun obj =>
            { obj with
              targetBcId := match obj.targetBcId with
                | some v => some v
                | none => st.matched_bc_id
              targetBcName := match obj.targetBcName with
                | some v => some v
                | none => st.matched_bc_name }))
          plan_summary := some result.summary }
    | Except.error e =>
        { proposed_objects := some []
          plan_summary := some (("Error generating objects: ") ++ e)
          error := some e }

/-- The API response dict built by `run_user_story_planning`
(user_story_graph.py lines 477-487). -/
structure PlanResponse where
  scope : PlanningScope
  scopeReasoning : String
  keywords : List String
  relatedObjects : List RelatedObject
  changes : List ProposedObject
  plan_summary : String
  deriving DecidableEq

/-- `run_user_story_planning` (user_story_graph.py lines 451-487): run
the linear graph `analyze_story → find_matching_bc → generate_objects`
(lines 425-443) on the initial state built from the arguments and
convert the final state to the API response. -/
def run_user_story_planning
    (analysis : Except String StoryAnalysis)
    (n : PlanningNeo4jOracle)
    (plan : Except String ObjectPlan)
    (role action benefit : String) (target_bc_id : Option String)
    (auto_generate : Bool) : PlanResponse :=
  let st0 : UserStoryPlanningState :=
    { role := role, action := action, benefit := benefit
      target_bc_id := target_bc_id, auto_generate := auto_generate }
  let st1 := applyPlanDelta st0 (analyze_story_node analysis st0)
  let st2 := applyPlanDelta st1 (find_matching_bc_node n st1)
  let st3 := applyPlanDelta st2 (generate_objects_node plan st2)
  { scope := st3.scope
    scopeReasoning := st3.scope_reasoning
    keywords := st3.domain_keywords
    relatedObjects := st3.related_objects
    changes := st3.proposed_objects
    plan_summary := st3.plan_summary }

end UserStoryGraph

/-! ## Concrete fixtures

A small concrete session used by the counterexamples and witnesses: one
user story, one bounded context, one aggregate, one command, one
event, no policy. -/

/-- Demo user story. -/
def usDemo : UserStory :=
  { id := ("US-1"), role := ("customer"), action := ("order a product"),
    benefit := (""), uiDescription := ("") }

/-- Demo bounded context candidate. -/
def bcDemo : BoundedContextCandidate :=
  { id := ("BC-ORDER"), name := ("Order"), description := ("Order handling"),
    rationale := (""), user_story_ids := [("US-1")] }

/-- Demo aggregate candidate. -/
def aggDemo : AggregateCandidate :=
  { id := ("AGG-ORDER-CART"), name := ("Cart"), root_entity := ("Cart"),
    user_story_ids := [("US-1")] }

/-- Demo command candidate. -/
def cmdDemo : CommandCandidate :=
  { id := ("CMD-ORDER-PLACE"), name := ("PlaceOrder"), user_story_ids := [("US-1")] }

/-- Demo event candidate. -/
def evtDemo : EventCandidate :=
  { id := ("EVT-ORDER-PLACED"), name := ("OrderPlaced") }

/-- Demo LLM oracle: deterministic single-candidate responses. -/
def demoLLM : LLMOracle where
  identifyBCs := fun _ => [bcDemo]
  breakdownStory := fun _ _ =>
    { user_story_id := (""), sub_tasks := [("place the order")],
      domain_concepts := [("order")], potential_aggregates := [("Cart")],
      potential_commands := [("PlaceOrder")] }
  extractAggregates := fun _ _ => [aggDemo]
  extractCommands := fun _ _ _ => [cmdDemo]
  extractReadmodels := fun _ _ => Except.ok []
  extractEvents := fun _ _ => [evtDemo]
  generateUICommand := fun _ _ => Except.error ("not reached")
  generateUIReadModel := fun _ _ => Except.error ("not reached")
  identifyPolicies := fun _ => []

/-- Demo Neo4j oracle: one story to load, persistence succeeds. -/
def demoNeo : Neo4jOracle where
  unprocessedStories := [usDemo]
  allStories := [usDemo]
  save := fun _ => Except.ok [("BC: Order")]

/-- A Neo4j oracle whose persistence call raises. -/
def failSaveNeo : Neo4jOracle :=
  { demoNeo with save := fun _ => Except.error ("Connection refused") }

/-- Unwrap a runner result, with the untouched-runner fallback (the
Python call would have raised). -/
def runnerOr (e : Except String Runner) (r₀ : Runner) : Runner :=
  match e with
  | Except.ok r => r
  | Except.error _ => r₀

/-- The pending step of a runner session. -/
def runnerNext (r : Runner) : Option NodeName := r.current.map (fun p => p.2)

/-- The `awaiting_human_approval` flag of a runner session. -/
def runnerAwaiting (r : Runner) : Option Bool :=
  r.current.map (fun p => p.1.awaiting_human_approval)

/-- The stored `human_feedback` slot of a runner session. -/
def runnerFeedback (r : Runner) : Option (Option String) :=
  r.current.map (fun p => p.1.human_feedback)

/-- The stored phase of a runner session. -/
def runnerPhase (r : Runner) : Option WorkflowPhase :=
  r.current.map (fun p => p.1.phase)

/-- `start()` on the demo session: suspends before `approve_bc`. -/
def demoR0 : Runner := Runner.start demoLLM demoNeo 30

/-- `provide_feedback("APPROVED")` at the BC review: runs the
breakdown and extraction loops and suspends before
`approve_aggregates`. -/
def demoR1 : Runner :=
  runnerOr (Runner.provide_feedback demoLLM demoNeo 30 demoR0 ("APPROVED")) demoR0

/-- Rejecting the aggregates (`provide_feedback` with revision text):
the workflow re-extracts and suspends before `approve_aggregates`
again. -/
def demoR2reject : Runner :=
  runnerOr (Runner.provide_feedback demoLLM demoNeo 30 demoR1
    ("Use one aggregate per BC")) demoR1

/-- `provide_feedback("APPROVED")` at the aggregate review: continues
to the policy review. -/
def demoR2 : Runner :=
  runnerOr (Runner.provide_feedback demoLLM demoNeo 30 demoR1 ("APPROVED")) demoR1

/-- `provide_feedback("APPROVED")` at the policy review: saves and
completes the session. -/
def demoR3 : Runner :=
  runnerOr (Runner.provide_feedback demoLLM demoNeo 30 demoR2 ("APPROVED")) demoR2

/-- `provide_feedback` on the already-completed session. -/
def demoR4 : Runner :=
  runnerOr (Runner.provide_feedback demoLLM demoNeo 30 demoR3 ("late feedback")) demoR3

/-- Membership in the interrupt set, as a Boolean. -/
def isInterruptStep (m : NodeName) : Bool := m ∈ interrupts

/-- The breakdown iteration in isolation: execute
`breakdown_user_story_node`, merge the delta, evaluate
`route_breakdown` on the post-merge state, and repeat while the router
returns the self edge; the first component collects the router
decisions (one per visit) and the second is the final state. -/
def breakdownLoop (o : LLMOracle) :
    Nat → EventStormingState → List NodeName × EventStormingState
  | 0, st => ([], st)
  | fuel + 1, st =>
      let st2 := applyDelta st (breakdown_user_story_node o st)
      let r := route_breakdown st2
      if r = NodeName.breakdown_user_story then
        let rest := breakdownLoop o fuel st2
        (r :: rest.1, rest.2)
      else ([r], st2)

/-- A second demo bounded context (for a length-2 iteration). -/
def bcDemo2 : BoundedContextCandidate :=
  { id := ("BC-PAYMENT"), name := ("Payment"), description := ("Payments"),
    rationale := (""), user_story_ids := [] }

/-- A state about to execute the BC-approval step with an *empty*
candidate list and an accepting feedback. -/
def c2state : EventStormingState :=
  { initialState with
    phase := WorkflowPhase.APPROVE_BC
    awaiting_human_approval := true
    human_feedback := some ("APPROVED") }

/-- A state about to execute the BC-approval step with one candidate
and a lower-case accepting feedback. -/
def c2wstate : EventStormingState :=
  { initialState with
    phase := WorkflowPhase.APPROVE_BC
    bc_candidates := [bcDemo]
    awaiting_human_approval := true
    human_feedback := some ("approved") }

/-- A state with non-empty feedback parked for an approval step. -/
def c4state : EventStormingState :=
  { initialState with
    bc_candidates := [bcDemo]
    human_feedback := some ("tweak the aggregates") }

/-- A state entering the breakdown loop with one approved BC. -/
def c5state : EventStormingState :=
  { initialState with
    user_stories := [usDemo]
    approved_bcs := [bcDemo]
    current_bc_index := 0 }

/-- A state entering the breakdown loop with two approved BCs. -/
def c5wstate : EventStormingState :=
  { initialState with
    user_stories := [usDemo]
    approved_bcs := [bcDemo, bcDemo2]
    current_bc_index := 0 }

/-- An LLM oracle whose ReadModel extraction call raises. -/
def failRMLLM : LLMOracle :=
  { demoLLM with extractReadmodels := fun _ _ => Except.error ("LLM call failed") }

/-- A state entering ReadModel extraction with one approved BC that
has commands (so the extraction call is actually made). -/
def c6state : EventStormingState :=
  { initialState with
    phase := WorkflowPhase.EXTRACT_READMODELS
    user_stories := [usDemo]
    approved_bcs := [bcDemo]
    approved_aggregates := [(("BC-ORDER"), [aggDemo])]
    command_candidates := [(("AGG-ORDER-CART"), [cmdDemo])] }

/-- A literal terminal runner session (phase `COMPLETE`, pending step
`END`). -/
def tinyDone : Runner :=
  { current := some ({ initialState with phase := WorkflowPhase.COMPLETE }, NodeName.END) }

/-- Acceptance as the approval steps test it: a non-empty feedback
string whose (character-wise) uppercase form is exactly "APPROVED". -/
def acceptedFeedback (fb : Option String) : Prop :=
  ∃ s, fb = some s ∧ s ≠ ("") ∧ pyUpper s = ("APPROVED")

/-- The revision path: a non-empty feedback string whose uppercase
form is anything other than "APPROVED". -/
def rejectedFeedback (fb : Option String) : Prop :=
  ∃ s, fb = some s ∧ s ≠ ("") ∧ pyUpper s ≠ ("APPROVED")

/-- Written from the spec words (spec section 8, "Merge correctness"):
for an overwrite field, "after == delta when delta provides the field,
else after == before". -/
def specOverwrite {α : Type} (before : α) (provided : Option α) : α :=
  match provided with
  | some v => v
  | none => before

/-- Written from the spec words (spec section 8, "Merge correctness"):
for the accumulator field the delta list is appended, and every
overwrite field follows `specOverwrite`.  This is the spec-side
definition to be compared with `applyDelta`, the merge translated from
the code. -/
def specMergePolicy (st : EventStormingState) (d : Delta) : EventStormingState where
  phase := specOverwrite st.phase d.phase
  messages := st.messages ++ d.messages
  user_stories := specOverwrite st.user_stories d.user_stories
  current_user_story_index := st.current_user_story_index
  bc_candidates := specOverwrite st.bc_candidates d.bc_candidates
  approved_bcs := specOverwrite st.approved_bcs d.approved_bcs
  current_bc_index := specOverwrite st.current_bc_index d.current_bc_index
  breakdowns := specOverwrite st.breakdowns d.breakdowns
  aggregate_candidates := specOverwrite st.aggregate_candidates d.aggregate_candidates
  approved_aggregates := specOverwrite st.approved_aggregates d.approved_aggregates
  command_candidates := specOverwrite st.command_candidates d.command_candidates
  event_candidates := specOverwrite st.event_candidates d.event_candidates
  readmodel_candidates := specOverwrite st.readmodel_candidates d.readmodel_candidates
  ui_candidates := specOverwrite st.ui_candidates d.ui_candidates
  policy_candidates := specOverwrite st.policy_candidates d.policy_candidates
  approved_policies := specOverwrite st.approved_policies d.approved_policies
  awaiting_human_approval := specOverwrite st.awaiting_human_approval d.awaiting_human_approval
  human_feedback := specOverwrite st.human_feedback d.human_feedback
  error := specOverwrite st.error (d.error.map some)
  processed_user_stories := st.processed_user_stories
  total_user_stories := specOverwrite st.total_user_stories d.total_user_stories

/-! ## Theorems -/

/-- `Option.getD` (the code-side overwrite) agrees with the spec-side
`specOverwrite`. -/
theorem getD_eq_specOverwrite {α : Type} (o : Option α) (x : α) :
    o.getD x = specOverwrite x o := by
  cases o <;> rfl

/-- C3.  Merging a step delta into the state obeys the merge policy:
the accumulator field (`messages`) grows by exactly the delta length,
every overwrite field takes the delta value when provided and keeps
the prior value otherwise (`applyDelta` agrees field-for-field with
the spec-side `specMergePolicy`), and consequently the messages
accumulator never shrinks. -/
theorem c3_merge_correctness (st : EventStormingState) (d : Delta) :
    applyDelta st d = specMergePolicy st d ∧
    (applyDelta st d).messages.length = st.messages.length + d.messages.length ∧
    st.messages.length ≤ (applyDelta st d).messages.length := by
  refine ⟨?_, by simp [applyDelta], by simp [applyDelta]⟩
  unfold applyDelta specMergePolicy
  simp only [getD_eq_specOverwrite]

/-- C4.  At any visit to an approval step (`approve_bc`,
`approve_aggregates`, `approve_policies`) with a non-empty feedback
present in state, the returned delta sets `awaiting_human_approval` to
`false` and clears `human_feedback` to `None`, in the acceptance and
the rejection branch alike. -/
theorem c4_feedback_cleared (st : EventStormingState) (f : String)
    (hf : st.human_feedback = some f) (hne : f ≠ ("")) :
    ((approve_bc_node st).awaiting_human_approval = some false ∧
      (approve_bc_node st).human_feedback = some none) ∧
    ((approve_aggregates_node st).awaiting_human_approval = some false ∧
      (approve_aggregates_node st).human_feedback = some none) ∧
    ((approve_policies_node st).awaiting_human_approval = some false ∧
      (approve_policies_node st).human_feedback = some none) := by
  have htruthy : pyTruthy st.human_feedback = true := by
    simp [pyTruthy, hf, hne]
  by_cases happ : (pyUpper ((st.human_feedback).getD ("")) == ("APPROVED")) = true <;>
    simp [approve_bc_node, approve_aggregates_node, approve_policies_node, htruthy, happ]

/-- C4 witness: the demo state with feedback "tweak the aggregates". -/
theorem c4_feedback_cleared_witness :
    ((approve_bc_node c4state).awaiting_human_approval = some false ∧
      (approve_bc_node c4state).human_feedback = some none) ∧
    ((approve_aggregates_node c4state).awaiting_human_approval = some false ∧
      (approve_aggregates_node c4state).human_feedback = some none) ∧
    ((approve_policies_node c4state).awaiting_human_approval = some false ∧
      (approve_policies_node c4state).human_feedback = some none) :=
  c4_feedback_cleared c4state ("tweak the aggregates") rfl (by decide)

/-- C8 counterexample: when the Neo4j persistence raises, the
`save_to_graph` step still returns a delta with phase `COMPLETE`, and
the graph edge out of `save_to_graph` is the terminal marker — the
failed session is moved to the terminal phase instead of staying
resumable. -/
theorem c8_counterexample :
    failSaveNeo.save initialState = Except.error ("Connection refused") ∧
    (save_to_graph_node failSaveNeo initialState).phase = some WorkflowPhase.COMPLETE ∧
    (save_to_graph_node failSaveNeo initialState).error = some ("Connection refused") ∧
    routeFrom NodeName.save_to_graph
      (applyDelta initialState (save_to_graph_node failSaveNeo initialState)) =
      NodeName.END := by
  refine ⟨rfl, rfl, rfl, rfl⟩

/-- C8 (amended).  When the persistence call of `save_to_graph_node`
raises, the caller does receive the failure (the exception message is
recorded in the `error` field of the returned delta and of the merged
state), but the step also sets the phase to the terminal `COMPLETE`
and the outgoing edge is the terminal marker, so the session is *not*
left resumable at the failed step. -/
theorem c8_save_failure (n : Neo4jOracle) (st : EventStormingState) (e : String)
    (hfail : n.save st = Except.error e) :
    (save_to_graph_node n st).phase = some WorkflowPhase.COMPLETE ∧
    (save_to_graph_node n st).error = some e ∧
    (applyDelta st (save_to_graph_node n st)).error = some e ∧
    (applyDelta st (save_to_graph_node n st)).phase = WorkflowPhase.COMPLETE ∧
    routeFrom NodeName.save_to_graph (applyDelta st (save_to_graph_node n st)) =
      NodeName.END := by
  simp [save_to_graph_node, hfail, applyDelta, routeFrom]

/-- A fold whose step fixes every accumulator returns the initial
accumulator. -/
theorem foldl_fixed {α β : Type} (f : α → β → α) (l : List β) (a : α)
    (h : ∀ x b, b ∈ l → f x b = x) : l.foldl f a = a := by
  induction l generalizing a with
  | nil => rfl
  | cons b t ih =>
      rw [List.foldl_cons, h a b (by simp)]
      exact ih a (fun x c hc => h x c (by simp [hc]))

/-- C6 counterexample: with an approved BC that has commands and an
extraction call that raises, `extract_readmodels_node` still returns
an ordinary delta — no failure is reported (`error` stays unset), an
empty result is substituted (the readmodel map is unchanged), and the
step advances the phase, so the engine persists this attempt as a
normal checkpoint.  The change-planning scope analysis behaves the
same way on a failing call. -/
theorem c6_counterexample :
    failRMLLM.extractReadmodels c6state bcDemo = Except.error ("LLM call failed") ∧
    (extract_readmodels_node failRMLLM c6state).error = none ∧
    (extract_readmodels_node failRMLLM c6state).phase = some WorkflowPhase.EXTRACT_EVENTS ∧
    (extract_readmodels_node failRMLLM c6state).readmodel_candidates =
      some c6state.readmodel_candidates ∧
    (ChangeGraph.analyze_scope_node (Except.error ("parse error")) {}).phase =
      ChangeGraph.ChangePlanningPhase.GENERATE_PLAN ∧
    (ChangeGraph.analyze_scope_node (Except.error ("parse error")) {}).change_scope =
      ChangeGraph.ChangeScope.LOCAL := by
  refine ⟨rfl, ?_, ?_, ?_, rfl, rfl⟩ <;> decide

/-- C6 (amended).  When every ReadModel extraction call raises, the
step swallows the exceptions: it substitutes the empty list for each
BC (leaving the readmodel map unchanged), reports no failure in the
delta, and advances the phase so the attempt is checkpointed as if it
had succeeded. -/
theorem c6_swallowed_failure (o : LLMOracle) (st : EventStormingState)
    (hfail : ∀ bc, ∃ e, o.extractReadmodels st bc = Except.error e) :
    (extract_readmodels_node o st).readmodel_candidates = some st.readmodel_candidates ∧
    (extract_readmodels_node o st).error = none ∧
    (extract_readmodels_node o st).phase = some WorkflowPhase.EXTRACT_EVENTS := by
  refine ⟨?_, rfl, rfl⟩
  unfold extract_readmodels_node
  simp only
  rw [foldl_fixed]
  intro acc bc _
  obtain ⟨e, he⟩ := hfail bc
  simp [he]

/-- C6 witness: the failing extraction oracle on the demo state. -/
theorem c6_swallowed_failure_witness :
    (extract_readmodels_node failRMLLM c6state).readmodel_candidates =
      some c6state.readmodel_candidates ∧
    (extract_readmodels_node failRMLLM c6state).error = none ∧
    (extract_readmodels_node failRMLLM c6state).phase =
      some WorkflowPhase.EXTRACT_EVENTS :=
  c6_swallowed_failure failRMLLM c6state
    (fun _ => ⟨("LLM call failed"), rfl⟩)

/-- C2 counterexample: accepting feedback with an *empty* candidate
list.  The step still promotes (copies the empty `bc_candidates` into
`approved_bcs`), but the router then returns to `identify_bc` instead
of advancing to `breakdown_user_story`, so the claim's "the router
then advances to breakdown_user_story" fails at this input. -/
theorem c2_counterexample :
    c2state.human_feedback = some ("APPROVED") ∧
    (approve_bc_node c2state).approved_bcs = some c2state.bc_candidates ∧
    route_after_bc_approval (applyDelta c2state (approve_bc_node c2state)) =
      NodeName.identify_bc ∧
    route_after_bc_approval (applyDelta c2state (approve_bc_node c2state)) ≠
      NodeName.breakdown_user_story := by
  refine ⟨rfl, ?_, ?_, ?_⟩ <;> decide

/-- C2 (amended).  At a BC-approval visit with non-empty feedback and
`approved_bcs` still empty (as is the case whenever `approve_bc`
executes in a session): on acceptance the step copies `bc_candidates`
into `approved_bcs` without touching `bc_candidates`, and the router
advances to `breakdown_user_story` provided the candidate list is
non-empty (with an empty candidate list it returns to `identify_bc`);
on rejection the step does not promote and the router returns to
`identify_bc`. -/
theorem c2_bc_approval (st : EventStormingState) (f : String)
    (hf : st.human_feedback = some f) (hne : f ≠ ("")) (hemp : st.approved_bcs = []) :
    (pyUpper f = ("APPROVED") →
      (approve_bc_node st).approved_bcs = some st.bc_candidates ∧
      (applyDelta st (approve_bc_node st)).bc_candidates = st.bc_candidates ∧
      (st.bc_candidates ≠ [] →
        route_after_bc_approval (applyDelta st (approve_bc_node st)) =
          NodeName.breakdown_user_story) ∧
      (st.bc_candidates = [] →
        route_after_bc_approval (applyDelta st (approve_bc_node st)) =
          NodeName.identify_bc)) ∧
    (pyUpper f ≠ ("APPROVED") →
      (approve_bc_node st).approved_bcs = none ∧
      route_after_bc_approval (applyDelta st (approve_bc_node st)) =
        NodeName.identify_bc) := by
  have htruthy : pyTruthy st.human_feedback = true := by
    simp [pyTruthy, hf, hne]
  constructor
  · intro happ
    have hcond : (pyUpper ((st.human_feedback).getD ("")) == ("APPROVED")) = true := by
      simp [hf, happ]
    refine ⟨?_, ?_, ?_, ?_⟩ <;>
      simp [approve_bc_node, htruthy, hcond, applyDelta, route_after_bc_approval]
  · intro happ
    have hcond : (pyUpper ((st.human_feedback).getD ("")) == ("APPROVED")) = false := by
      simp [hf, happ]
    refine ⟨?_, ?_⟩ <;>
      simp [approve_bc_node, htruthy, hcond, applyDelta, route_after_bc_approval, hemp]

/-- C2 witness: a lower-case "approved" on a one-candidate state
promotes the candidate list and routes to the breakdown step. -/
theorem c2_bc_approval_witness :
    (approve_bc_node c2wstate).approved_bcs = some [bcDemo] ∧
    (applyDelta c2wstate (approve_bc_node c2wstate)).bc_candidates = [bcDemo] ∧
    route_after_bc_approval (applyDelta c2wstate (approve_bc_node c2wstate)) =
      NodeName.breakdown_user_story := by
  have h := (c2_bc_approval c2wstate ("approved") rfl (by decide) rfl).1 (by decide)
  exact ⟨h.1, h.2.1, h.2.2.1 (by decide)⟩

/-- Merging a breakdown delta never changes the approved BC list (the
node provides no `approved_bcs` field). -/
theorem breakdown_post_bcs (o : LLMOracle) (st : EventStormingState) :
    (applyDelta st (breakdown_user_story_node o st)).approved_bcs = st.approved_bcs := by
  unfold breakdown_user_story_node applyDelta
  split <;> rfl

/-- A breakdown visit below the collection length increments the
index. -/
theorem breakdown_post_index (o : LLMOracle) (st : EventStormingState)
    (h : st.current_bc_index < st.approved_bcs.length) :
    (applyDelta st (breakdown_user_story_node o st)).current_bc_index =
      st.current_bc_index + 1 := by
  unfold breakdown_user_story_node applyDelta
  split
  · omega
  · rfl

/-- The breakdown loop from index `i < N` makes `N - i` visits: the
router decisions are `N - i - 1` self edges followed by the exit edge,
and the final index is `N`. -/
theorem breakdownLoop_spec (o : LLMOracle) (N : Nat) :
    ∀ (fuel i : Nat) (st : EventStormingState),
      st.approved_bcs.length = N → st.current_bc_index = i → i < N → N - i ≤ fuel →
      (breakdownLoop o fuel st).1 =
        List.replicate (N - i - 1) NodeName.breakdown_user_story ++
          [NodeName.extract_aggregates] ∧
      (breakdownLoop o fuel st).2.current_bc_index = N := by
  intro fuel
  induction fuel with
  | zero => intro i st _ _ hi hf; omega
  | succ fuel ih =>
      intro i st hlen hidx hi _
      have hlt : st.current_bc_index < st.approved_bcs.length := by omega
      have hbcs := breakdown_post_bcs o st
      have hpost := breakdown_post_index o st hlt
      unfold breakdownLoop
      simp only
      by_cases hself : i + 1 < N
      · have hroute : route_breakdown (applyDelta st (breakdown_user_story_node o st)) =
            NodeName.breakdown_user_story := by
          unfold route_breakdown
          rw [hpost, hbcs, hidx, hlen]
          simp [hself]
        rw [hroute]
        simp only [if_pos rfl]
        obtain ⟨h1, h2⟩ := ih (i + 1) (applyDelta st (breakdown_user_story_node o st))
          (by rw [hbcs, hlen]) (by rw [hpost, hidx]) hself (by omega)
        refine ⟨?_, h2⟩
        rw [h1]
        have : N - i - 1 = (N - (i + 1) - 1) + 1 := by omega
        rw [this, List.replicate_succ]
        simp
      · have hiN : i + 1 = N := by omega
        have hroute : route_breakdown (applyDelta st (breakdown_user_story_node o st)) =
            NodeName.extract_aggregates := by
          unfold route_breakdown
          rw [hpost, hbcs, hidx, hlen]
          simp [hself]
        rw [hroute]
        simp only [if_neg
          (show ¬(NodeName.extract_aggregates = NodeName.breakdown_user_story) by simp)]
        constructor
        · have : N - i - 1 = 0 := by omega
          rw [this]
          rfl
        · rw [hpost, hidx, hiN]

/-- C5 counterexample: with exactly one approved BC (`N = 1`) and the
index starting at 0, the loop makes one visit and the router
immediately takes the exit edge — the self edge is taken 0 times, not
`N = 1` times as the claim states. -/
theorem c5_counterexample :
    c5state.approved_bcs.length = 1 ∧
    c5state.current_bc_index = 0 ∧
    (breakdownLoop demoLLM 5 c5state).1 = [NodeName.extract_aggregates] ∧
    (breakdownLoop demoLLM 5 c5state).1.count NodeName.breakdown_user_story = 0 := by
  refine ⟨rfl, rfl, ?_, ?_⟩ <;> decide

/-- C5 (amended).  The bounded-iteration step entered with index 0 and
`N ≥ 1` approved BCs executes exactly `N` times, each visit processing
one BC and incrementing the index; the router returns the self edge
while the post-increment index is below `N`, so the loop transitions
through the self edge exactly `N - 1` times before taking the exit
edge to `extract_aggregates`. -/
theorem c5_breakdown_iteration (o : LLMOracle) (st : EventStormingState) (N fuel : Nat)
    (hlen : st.approved_bcs.length = N) (hidx : st.current_bc_index = 0)
    (hN : 0 < N) (hfuel : N ≤ fuel) :
    (breakdownLoop o fuel st).1 =
      List.replicate (N - 1) NodeName.breakdown_user_story ++
        [NodeName.extract_aggregates] ∧
    (breakdownLoop o fuel st).1.length = N ∧
    (breakdownLoop o fuel st).1.count NodeName.breakdown_user_story = N - 1 ∧
    (breakdownLoop o fuel st).2.current_bc_index = N := by
  obtain ⟨h1, h2⟩ := breakdownLoop_spec o N fuel 0 st hlen hidx hN (by omega)
  rw [Nat.sub_zero] at h1
  refine ⟨h1, ?_, ?_, h2⟩
  · rw [h1]
    simp
    omega
  · rw [h1]
    simp [List.count_append, List.count_replicate]

/-- C5 witness: the two-BC demo state iterates twice, with one self
transition. -/
theorem c5_breakdown_iteration_witness :
    (breakdownLoop demoLLM 5 c5wstate).1 =
      List.replicate 1 NodeName.breakdown_user_story ++ [NodeName.extract_aggregates] ∧
    (breakdownLoop demoLLM 5 c5wstate).1.length = 2 ∧
    (breakdownLoop demoLLM 5 c5wstate).1.count NodeName.breakdown_user_story = 1 ∧
    (breakdownLoop demoLLM 5 c5wstate).2.current_bc_index = 2 :=
  c5_breakdown_iteration demoLLM c5wstate 2 5 rfl rfl (by omega) (by omega)

/-- The BC approval step promotes exactly when the feedback is
accepted. -/
theorem approve_bc_promotes_iff (st : EventStormingState) :
    (approve_bc_node st).approved_bcs = some st.bc_candidates ↔
      acceptedFeedback st.human_feedback := by
  rcases hfb : st.human_feedback with _ | s
  · simp [approve_bc_node, pyTruthy, hfb, acceptedFeedback]
  · by_cases hs : s = ("")
    · simp [approve_bc_node, pyTruthy, hfb, hs, acceptedFeedback]
    · by_cases hu : pyUpper s = ("APPROVED") <;>
        simp [approve_bc_node, pyTruthy, hfb, hs, hu, acceptedFeedback]

/-- The BC approval step routes back to identification exactly when
the feedback is non-empty and not accepted. -/
theorem approve_bc_revises_iff (st : EventStormingState) :
    (approve_bc_node st).phase = some WorkflowPhase.IDENTIFY_BC ↔
      rejectedFeedback st.human_feedback := by
  rcases hfb : st.human_feedback with _ | s
  · simp [approve_bc_node, pyTruthy, hfb, rejectedFeedback]
  · by_cases hs : s = ("")
    · simp [approve_bc_node, pyTruthy, hfb, hs, rejectedFeedback]
    · by_cases hu : pyUpper s = ("APPROVED") <;>
        simp [approve_bc_node, pyTruthy, hfb, hs, hu, rejectedFeedback]

/-- The aggregate approval step promotes exactly when the feedback is
accepted. -/
theorem approve_aggregates_promotes_iff (st : EventStormingState) :
    (approve_aggregates_node st).approved_aggregates = some st.aggregate_candidates ↔
      acceptedFeedback st.human_feedback := by
  rcases hfb : st.human_feedback with _ | s
  · simp [approve_aggregates_node, pyTruthy, hfb, acceptedFeedback]
  · by_cases hs : s = ("")
    · simp [approve_aggregates_node, pyTruthy, hfb, hs, acceptedFeedback]
    · by_cases hu : pyUpper s = ("APPROVED") <;>
        simp [approve_aggregates_node, pyTruthy, hfb, hs, hu, acceptedFeedback]

/-- The policy approval step promotes exactly when the feedback is
accepted. -/
theorem approve_policies_promotes_iff (st : EventStormingState) :
    (approve_policies_node st).approved_policies = some st.policy_candidates ↔
      acceptedFeedback st.human_feedback := by
  rcases hfb : st.human_feedback with _ | s
  · simp [approve_policies_node, pyTruthy, hfb, acceptedFeedback]
  · by_cases hs : s = ("")
    · simp [approve_policies_node, pyTruthy, hfb, hs, acceptedFeedback]
    · by_cases hu : pyUpper s = ("APPROVED") <;>
        simp [approve_policies_node, pyTruthy, hfb, hs, hu, acceptedFeedback]

/-- The change-planning approval router applies the plan exactly when
the feedback is accepted. -/
theorem change_route_applies_iff (cst : ChangeGraph.ChangePlanningState) :
    ChangeGraph.route_after_approval cst = ChangeGraph.ApprovalRoute.apply_changes ↔
      acceptedFeedback cst.human_feedback := by
  rcases hfb : cst.human_feedback with _ | s
  · simp [ChangeGraph.route_after_approval, pyTruthy, hfb, acceptedFeedback]
  · by_cases hs : s = ("")
    · simp [ChangeGraph.route_after_approval, pyTruthy, hfb, hs, acceptedFeedback]
    · by_cases hu : pyUpper s = ("APPROVED") <;>
        simp [ChangeGraph.route_after_approval, pyTruthy, hfb, hs, hu, acceptedFeedback]

/-- The change-planning approval router takes the revision path
exactly when the feedback is non-empty and not accepted. -/
theorem change_route_revises_iff (cst : ChangeGraph.ChangePlanningState) :
    ChangeGraph.route_after_approval cst = ChangeGraph.ApprovalRoute.revise_plan ↔
      rejectedFeedback cst.human_feedback := by
  rcases hfb : cst.human_feedback with _ | s
  · simp [ChangeGraph.route_after_approval, pyTruthy, hfb, rejectedFeedback]
  · by_cases hs : s = ("")
    · simp [ChangeGraph.route_after_approval, pyTruthy, hfb, hs, rejectedFeedback]
    · by_cases hu : pyUpper s = ("APPROVED") <;>
        simp [ChangeGraph.route_after_approval, pyTruthy, hfb, hs, hu, rejectedFeedback]

/-- C9.  Every approval step (and the change-planning approval router)
treats the feedback as acceptance exactly when it is non-empty and its
uppercase form equals "APPROVED"; matching is case-insensitive
("approved" is accepted) and every other non-empty string takes the
revision path. -/
theorem c9_acceptance_matching (st : EventStormingState)
    (cst : ChangeGraph.ChangePlanningState) :
    ((approve_bc_node st).approved_bcs = some st.bc_candidates ↔
      acceptedFeedback st.human_feedback) ∧
    ((approve_bc_node st).phase = some WorkflowPhase.IDENTIFY_BC ↔
      rejectedFeedback st.human_feedback) ∧
    ((approve_aggregates_node st).approved_aggregates = some st.aggregate_candidates ↔
      acceptedFeedback st.human_feedback) ∧
    ((approve_policies_node st).approved_policies = some st.policy_candidates ↔
      acceptedFeedback st.human_feedback) ∧
    (ChangeGraph.route_after_approval cst = ChangeGraph.ApprovalRoute.apply_changes ↔
      acceptedFeedback cst.human_feedback) ∧
    (ChangeGraph.route_after_approval cst = ChangeGraph.ApprovalRoute.revise_plan ↔
      rejectedFeedback cst.human_feedback) ∧
    pyUpper ("approved") = ("APPROVED") ∧
    acceptedFeedback (some ("approved")) :=
  ⟨approve_bc_promotes_iff st, approve_bc_revises_iff st,
   approve_aggregates_promotes_iff st, approve_policies_promotes_iff st,
   change_route_applies_iff cst, change_route_revises_iff cst,
   by decide, ⟨("approved"), rfl, by decide, by decide⟩⟩

/-- The keyword-search node never writes the `domain_keywords`
field. -/
theorem findBCByKeywords_no_keywords (n : UserStoryGraph.PlanningNeo4jOracle)
    (st : UserStoryGraph.UserStoryPlanningState) :
    (UserStoryGraph.findBCByKeywords n st).domain_keywords = none := by
  unfold UserStoryGraph.findBCByKeywords
  simp only
  split
  · split <;> rfl
  · rfl

/-- The BC-matching node never writes the `domain_keywords` field. -/
theorem find_matching_no_keywords (n : UserStoryGraph.PlanningNeo4jOracle)
    (st : UserStoryGraph.UserStoryPlanningState) :
    (UserStoryGraph.find_matching_bc_node n st).domain_keywords = none := by
  unfold UserStoryGraph.find_matching_bc_node
  split
  · split
    · rfl
    · exact findBCByKeywords_no_keywords n st
  · exact findBCByKeywords_no_keywords n st

/-- C10.  With `auto_generate = false` the planning workflow returns
an empty `changes` list and the fixed "Auto-generation disabled"
summary, without consulting the object-generation LLM (the response
does not depend on that oracle), while the analyze and BC-matching
steps still run: the response's keywords are those the analyze step
produced, and its scope is the one the matching step produced. -/
theorem c10_auto_generate_disabled
    (a : Except String UserStoryGraph.StoryAnalysis)
    (n : UserStoryGraph.PlanningNeo4jOracle)
    (g g2 : Except String UserStoryGraph.ObjectPlan)
    (role action benefit : String) (target : Option String) :
    (UserStoryGraph.run_user_story_planning a n g role action benefit target false).changes
      = [] ∧
    (UserStoryGraph.run_user_story_planning a n g role action benefit target false).plan_summary
      = ("Auto-generation disabled. User story will be created without related objects.") ∧
    UserStoryGraph.run_user_story_planning a n g role action benefit target false =
      UserStoryGraph.run_user_story_planning a n g2 role action benefit target false ∧
    (UserStoryGraph.run_user_story_planning a n g role action benefit target false).keywords =
      (UserStoryGraph.applyPlanDelta
        { role := role, action := action, benefit := benefit,
          target_bc_id := target, auto_generate := false }
        (UserStoryGraph.analyze_story_node a
          { role := role, action := action, benefit := benefit,
            target_bc_id := target, auto_generate := false })).domain_keywords ∧
    (UserStoryGraph.run_user_story_planning a n g role action benefit target false).scope =
      (UserStoryGraph.applyPlanDelta
        (UserStoryGraph.applyPlanDelta
          { role := role, action := action, benefit := benefit,
            target_bc_id := target, auto_generate := false }
          (UserStoryGraph.analyze_story_node a
            { role := role, action := action, benefit := benefit,
              target_bc_id := target, auto_generate := false }))
        (UserStoryGraph.find_matching_bc_node n
          (UserStoryGraph.applyPlanDelta
            { role := role, action := action, benefit := benefit,
              target_bc_id := target, auto_generate := false }
            (UserStoryGraph.analyze_story_node a
              { role := role, action := action, benefit := benefit,
                target_bc_id := target, auto_generate := false })))).scope := by
  refine ⟨rfl, rfl, rfl, ?_, rfl⟩
  show (UserStoryGraph.find_matching_bc_node n _).domain_keywords.getD _ = _
  rw [find_matching_no_keywords]
  rfl

/-- Whenever executing a node routes the graph into `approve_bc` or
`approve_policies`, the post-merge state has the awaiting flag set:
the only edges into those two steps leave `identify_bc` and
`identify_policies`, whose deltas set
`awaiting_human_approval = True`.  (No such guarantee holds for
`approve_aggregates`, which is also entered from the
`extract_aggregates` iteration.) -/
theorem routed_into_approval_sets_flag (o : LLMOracle) (nn : Neo4jOracle)
    (m : NodeName) (st : EventStormingState) :
    (routeFrom m (applyDelta st (nodeFn o nn m st)) = NodeName.approve_bc ∨
     routeFrom m (applyDelta st (nodeFn o nn m st)) = NodeName.approve_policies) →
    (applyDelta st (nodeFn o nn m st)).awaiting_human_approval = true := by
  cases m with
  | identify_bc => intro _; simp [nodeFn, identify_bc_node, applyDelta]
  | identify_policies => intro _; simp [nodeFn, identify_policies_node, applyDelta]
  | approve_bc =>
      intro h; revert h
      simp only [routeFrom]
      unfold route_after_bc_approval
      split <;> simp
  | breakdown_user_story =>
      intro h; revert h
      simp only [routeFrom]
      unfold route_breakdown
      split <;> simp
  | extract_aggregates =>
      intro h; revert h
      simp only [routeFrom]
      unfold route_aggregate_extraction
      split <;> simp
  | approve_aggregates =>
      intro h; revert h
      simp only [routeFrom]
      unfold route_after_aggregate_approval
      split <;> simp
  | approve_policies =>
      intro h; revert h
      simp only [routeFrom]
      unfold route_after_policy_approval
      split
      · simp
      · split <;> simp
  | _ => intro h; simp [routeFrom] at h

/-- C1 (amended).  The engine loop never executes an interrupt-set
step (the automatic advance suspends before them, so the step pending
at a suspension has not been run), and whenever it stops with
`approve_bc` or `approve_policies` pending, the returned state has
`awaiting_human_approval = true` (provided the flag already held if
the loop was entered already pointing at one of those two steps).  The
flag guarantee does *not* extend to `approve_aggregates`: the
rejection path re-enters the extraction loop, which reaches
`approve_aggregates` without setting the flag (see the
counterexample). -/
theorem c1_interrupt_fidelity (o : LLMOracle) (nn : Neo4jOracle) :
    ∀ (fuel : Nat) (st : EventStormingState) (next : NodeName),
      ((next = NodeName.approve_bc ∨ next = NodeName.approve_policies) →
        st.awaiting_human_approval = true) →
      (runLoop o nn fuel st next).trace.filter isInterruptStep = [] ∧
      (((runLoop o nn fuel st next).next = NodeName.approve_bc ∨
        (runLoop o nn fuel st next).next = NodeName.approve_policies) →
        (runLoop o nn fuel st next).state.awaiting_human_approval = true) := by
  intro fuel
  induction fuel with
  | zero => exact fun st next h => ⟨rfl, h⟩
  | succ fuel ih =>
      intro st next h
      by_cases hEnd : next = NodeName.END
      · subst hEnd
        simp only [runLoop, if_pos rfl]
        exact ⟨rfl, h⟩
      · by_cases hInt : next ∈ interrupts
        · simp only [runLoop, if_neg hEnd, if_pos hInt]
          exact ⟨rfl, h⟩
        · have hfalse : isInterruptStep next = false := by
            unfold isInterruptStep
            simpa using hInt
          have hstep := routed_into_approval_sets_flag o nn next st
          obtain ⟨ih1, ih2⟩ := ih (applyDelta st (nodeFn o nn next st))
            (routeFrom next (applyDelta st (nodeFn o nn next st))) hstep
          simp only [runLoop, if_neg hEnd, if_neg hInt]
          exact ⟨by simp [List.filter, hfalse, ih1], ih2⟩

/-- C1 witness: starting the demo session runs no interrupt step and
suspends before `approve_bc` with the awaiting flag set. -/
theorem c1_interrupt_fidelity_witness :
    (runLoop demoLLM demoNeo 30 initialState NodeName.init).trace.filter
      isInterruptStep = [] ∧
    (runLoop demoLLM demoNeo 30 initialState NodeName.init).next =
      NodeName.approve_bc ∧
    (runLoop demoLLM demoNeo 30 initialState NodeName.init).state.awaiting_human_approval
      = true := by
  have h := c1_interrupt_fidelity demoLLM demoNeo 30 initialState NodeName.init
    (by rintro (hc | hc) <;> cases hc)
  have hnext : (runLoop demoLLM demoNeo 30 initialState NodeName.init).next =
      NodeName.approve_bc := by decide
  exact ⟨h.1, hnext, h.2 (Or.inl hnext)⟩

/-- C1 counterexample: in the demo session, rejecting the aggregate
review resumes into the rejection branch of `approve_aggregates`,
which routes back into the extraction loop; the loop reaches
`approve_aggregates` again without setting the flag, and the resume
returns suspended before an interrupt step with
`awaiting_human_approval = false`. -/
theorem c1_counterexample :
    runnerNext demoR2reject = some NodeName.approve_aggregates ∧
    NodeName.approve_aggregates ∈ interrupts ∧
    runnerAwaiting demoR2reject = some false := by
  refine ⟨by decide, by decide, by decide⟩

/-- C7 counterexample: the demo session has completed (terminal phase,
pending step `END`, not suspended), yet `provide_feedback` is *not*
rejected — it succeeds and overwrites the stored feedback slot. -/
theorem c7_counterexample :
    Runner.is_complete demoR3 = true ∧
    runnerAwaiting demoR3 = some false ∧
    runnerNext demoR3 = some NodeName.END ∧
    (Runner.provide_feedback demoLLM demoNeo 30 demoR3 ("late feedback")).isOk = true ∧
    runnerFeedback demoR3 = some none ∧
    runnerFeedback demoR4 = some (some ("late feedback")) := by
  refine ⟨by decide, by decide, by decide, by decide, by decide, by decide⟩

/-- C7 (amended).  `provide_feedback` rejects a call synchronously
only when the workflow has never been started; on any started session
— suspended or not, including one that has already reached the
terminal marker — the call succeeds, overwrites the feedback slot and
the awaiting flag in the stored state, and resumes.  In particular on
a terminal session the stored state is changed, not left intact. -/
theorem c7_provide_feedback (o : LLMOracle) (nn : Neo4jOracle) (fuel : Nat)
    (r : Runner) (fb : String) :
    (r.current = none →
      Runner.provide_feedback o nn fuel r fb =
        Except.error ("Workflow not started. Call start() first.")) ∧
    (∀ st, r.current = some (st, NodeName.END) →
      Runner.provide_feedback o nn fuel r fb =
        Except.ok { current := some ({ st with
          human_feedback := some fb, awaiting_human_approval := false },
            NodeName.END) }) := by
  constructor
  · intro hnone
    simp [Runner.provide_feedback, hnone]
  · intro st hsome
    simp [Runner.provide_feedback, hsome, resumeLoop]

/-- C7 witness: an unstarted runner is rejected with the usage error,
and the literal terminal session accepts the patch. -/
theorem c7_provide_feedback_witness :
    Runner.provide_feedback demoLLM demoNeo 30 ({} : Runner) ("x") =
      Except.error ("Workflow not started. Call start() first.") ∧
    Runner.provide_feedback demoLLM demoNeo 30 tinyDone ("x") =
      Except.ok { current := some ({ initialState with
        phase := WorkflowPhase.COMPLETE,
        human_feedback := some ("x"), awaiting_human_approval := false },
          NodeName.END) } :=
  ⟨(c7_provide_feedback demoLLM demoNeo 30 {} ("x")).1 rfl,
   (c7_provide_feedback demoLLM demoNeo 30 tinyDone ("x")).2
     ({ initialState with phase := WorkflowPhase.COMPLETE }) rfl⟩

/-- C8 witness: the failing persistence oracle on the initial state. -/
theorem c8_save_failure_witness :
    (save_to_graph_node failSaveNeo initialState).phase = some WorkflowPhase.COMPLETE ∧
    (save_to_graph_node failSaveNeo initialState).error = some ("Connection refused") ∧
    (applyDelta initialState (save_to_graph_node failSaveNeo initialState)).error =
      some ("Connection refused") ∧
    (applyDelta initialState (save_to_graph_node failSaveNeo initialState)).phase =
      WorkflowPhase.COMPLETE ∧
    routeFrom NodeName.save_to_graph
      (applyDelta initialState (save_to_graph_node failSaveNeo initialState)) =
      NodeName.END :=
  c8_save_failure failSaveNeo initialState ("Connection refused") rfl

end RoboArchitect
